import Mathlib

/-!
Shallow embedding of the brainstorm-mcp core (model resolver, invocation
client, history compactor, round orchestrator, synthesis engine, session
store, and the `brainstorm_respond` tool handler), together with theorems
settling the specification claims about it.

Conventions of the embedding:
* JavaScript strings are Lean `String`s; `.length`, `.slice(0, n)` are
  modelled on characters.
* `Date.now()` timestamps are explicit `now : Nat` parameters (milliseconds).
* The chat-completions transport is an oracle `Backend` mapping a resolved
  model and the (system, user) message pair to a settled reply; timeouts and
  network failures are `BackendReply.failure` outcomes.
* The global mutable session `Map` is an explicit list of sessions in
  insertion order, threaded through each operation.
* Thrown JavaScript exceptions are `Except` errors.
-/

namespace Brainstorm

/-- Provider registry entry (types.ts `ProviderConfig`). -/
structure ProviderConfig where
  name : String
  baseURL : String
  apiKeyEnvVar : String
  defaultModel : String
deriving DecidableEq, Repr

/-- Resolution result (types.ts `ResolvedModel`). -/
structure ResolvedModel where
  provider : String
  modelId : String
  baseURL : String
  apiKeyEnvVar : String
deriving DecidableEq, Repr

/-- One model's (or the host's) contribution to one round
(types.ts `RoundResponse`); `error` is the optional error message. -/
structure RoundResponse where
  modelId : String
  round : Nat
  content : String
  error : Option String := none
deriving DecidableEq, Repr

/-- The two resolution-time error kinds of the spec's taxonomy; each carries
the thrown `Error`'s message (models.ts throws plain `Error`s whose message
identifies the kind). -/
inductive ResolveError where
  | invalidIdentifier (msg : String)
  | unknownProvider (msg : String)
deriving DecidableEq, Repr

/-- The thrown message carried by a resolution error. -/
def ResolveError.message : ResolveError → String
  | .invalidIdentifier msg => msg
  | .unknownProvider msg => msg

/-- models.ts `getProvider`: lookup in the provider registry (here the
registry is an explicit list in registration order). -/
def getProvider (providers : List ProviderConfig) (name : String) :
    Option ProviderConfig :=
  providers.find? (fun p => p.name == name)

/-- models.ts `listProviders().map(p => p.name).join(", ")` as used in
resolution error messages. -/
def availableProviders (providers : List ProviderConfig) : String :=
  String.intercalate ", " (providers.map (fun p => p.name))

/-- `identifier.indexOf(":")` as an optional character index. -/
def firstColonIdx (s : String) : Option Nat :=
  s.toList.findIdx? (fun c => c = ':')

/-- The provider portion before the first colon (empty when no colon). -/
def providerPortion (s : String) : String :=
  match firstColonIdx s with
  | none => ""
  | some i => (s.toList.take i).asString

/-- The model portion after the first colon (empty when no colon). -/
def modelPortion (s : String) : String :=
  match firstColonIdx s with
  | none => ""
  | some i => (s.toList.drop (i + 1)).asString

/-- models.ts `resolveModel`: split the identifier at its first colon, reject
a missing colon or empty model portion, look the provider up, and return the
connection parameters. Throwing is modelled as `Except.error`. -/
def resolveModel (providers : List ProviderConfig) (identifier : String) :
    Except ResolveError ResolvedModel :=
  match firstColonIdx identifier with
  | none =>
    .error (.invalidIdentifier
      ("Invalid format \"" ++ identifier ++
        "\". Use \"provider:model\" (e.g. \"openai:gpt-4o\"). Available: " ++
        availableProviders providers))
  | some colonIdx =>
    let providerName := (identifier.toList.take colonIdx).asString
    let modelId := (identifier.toList.drop (colonIdx + 1)).asString
    if modelId.isEmpty then
      .error (.invalidIdentifier
        ("No model in \"" ++ identifier ++ "\". Use \"provider:model\" format."))
    else
      match getProvider providers providerName with
      | none =>
        .error (.unknownProvider
          ("Unknown provider \"" ++ providerName ++ "\". Available: " ++
            availableProviders providers))
      | some provider =>
        .ok { provider := providerName
              modelId := modelId
              baseURL := provider.baseURL
              apiKeyEnvVar := provider.apiKeyEnvVar }

/-- Boolean success test for an `Except`. -/
def exceptOk {ε α : Type} : Except ε α → Bool
  | .ok _ => true
  | .error _ => false

/-- Decidable equality of `Except` values, for concrete evaluation. -/
instance instDecEqExcept {ε α : Type} [DecidableEq ε] [DecidableEq α] :
    DecidableEq (Except ε α) := fun a b =>
  match a, b with
  | .ok x, .ok y =>
    if h : x = y then .isTrue (by rw [h])
    else .isFalse (by intro hc; injection hc with h2; exact h h2)
  | .ok _, .error _ => .isFalse (by intro hc; cases hc)
  | .error _, .ok _ => .isFalse (by intro hc; cases hc)
  | .error x, .error y =>
    if h : x = y then .isTrue (by rw [h])
    else .isFalse (by intro hc; injection hc with h2; exact h h2)

/-! ## Session store (sessions.ts) -/

/-- Session lifecycle status (types.ts `DebateSession.status`). -/
inductive SessionStatus where
  | awaiting_host
  | complete
deriving DecidableEq, Repr

/-- Interactive debate session state (types.ts `DebateSession`). The JS
`Set<string>` of failed models is an insertion-ordered duplicate-free list. -/
structure DebateSession where
  id : String
  topic : String
  modelIdentifiers : List String
  totalRounds : Nat
  currentRound : Nat
  rounds : List (List RoundResponse)
  synthesizerIdentifier : String
  systemPrompt : Option String
  failedModels : List String
  startTime : Nat
  createdAt : Nat
  totalCharsProcessed : Nat
  status : SessionStatus
deriving DecidableEq, Repr

/-- The in-memory session store: the JS `Map<string, DebateSession>` keyed by
`session.id`, kept in insertion order. -/
abbrev SessionStore : Type := List DebateSession

/-- sessions.ts `SESSION_TTL_MS`. -/
def SESSION_TTL_MS : Nat := 10 * 60 * 1000

/-- sessions.ts `MAX_SESSIONS`. -/
def MAX_SESSIONS : Nat := 50

/-- `sessions.get(id)` on the raw map, before any TTL check. -/
def storeGet (store : SessionStore) (id : String) : Option DebateSession :=
  store.find? (fun s => s.id == id)

/-- `sessions.set(s.id, s)`: replace an existing entry in place, else append. -/
def storeSet (store : SessionStore) (s : DebateSession) : SessionStore :=
  if store.any (fun t => t.id == s.id) then
    store.map (fun t => if t.id == s.id then s else t)
  else
    store ++ [s]

/-- `sessions.delete(id)`. -/
def storeDelete (store : SessionStore) (id : String) : SessionStore :=
  store.filter (fun s => !(s.id == id))

/-- JS `Set.add` on the insertion-ordered list model of a `Set<string>`. -/
def setAdd (s : List String) (x : String) : List String :=
  if s.contains x then s else s ++ [x]

/-- sessions.ts `cleanExpired`: drop every session strictly older than the
TTL. -/
def cleanExpired (now : Nat) (store : SessionStore) : SessionStore :=
  store.filter (fun s => !(now - s.createdAt > SESSION_TTL_MS))

/-- The `(a, b) => a.createdAt - b.createdAt` comparator of
sessions.ts `createSession`, as a Boolean ordering. -/
def byCreatedAt (a b : DebateSession) : Bool :=
  a.createdAt ≤ b.createdAt

/-- The entries of the store sorted by creation time ascending, as built by
`[...sessions.entries()].sort((a, b) => a.createdAt - b.createdAt)` (JS sort
is stable, so ties keep insertion order). -/
def sortByCreatedAt (store : SessionStore) : SessionStore :=
  store.mergeSort byCreatedAt

/-- Parameters of sessions.ts `createSession`. -/
structure CreateParams where
  topic : String
  modelIdentifiers : List String
  totalRounds : Nat
  synthesizerIdentifier : String
  systemPrompt : Option String
deriving DecidableEq, Repr

/-- The fresh session object built by sessions.ts `createSession`: round
counter at 0, empty transcript, `awaiting_host` status. `now` is
`Date.now()` and `newId` the generated `randomUUID()`. -/
def newSession (now : Nat) (newId : String) (params : CreateParams) : DebateSession :=
  { id := newId
    topic := params.topic
    modelIdentifiers := params.modelIdentifiers
    totalRounds := params.totalRounds
    currentRound := 0
    rounds := []
    synthesizerIdentifier := params.synthesizerIdentifier
    systemPrompt := params.systemPrompt
    failedModels := []
    startTime := now
    createdAt := now
    totalCharsProcessed := 0
    status := .awaiting_host }

/-- sessions.ts `createSession`: sweep expired entries, evict the single
oldest remaining entry (first of the stable sort by creation time) when
still at capacity, then insert the fresh session. -/
def createSession (now : Nat) (newId : String) (params : CreateParams)
    (store : SessionStore) : DebateSession × SessionStore :=
  let cleaned := cleanExpired now store
  let afterEvict :=
    if cleaned.length ≥ MAX_SESSIONS then
      match sortByCreatedAt cleaned with
      | [] => cleaned
      | oldest :: _ => storeDelete cleaned oldest.id
    else cleaned
  (newSession now newId params, storeSet afterEvict (newSession now newId params))

/-- sessions.ts `getSession`: return the session when present and not past
its TTL; when present but expired, delete it and signal absence. Returns the
store after any lazy eviction. -/
def getSession (now : Nat) (store : SessionStore) (id : String) :
    Option DebateSession × SessionStore :=
  match storeGet store id with
  | none => (none, store)
  | some s =>
    if now - s.createdAt > SESSION_TTL_MS then
      (none, storeDelete store id)
    else
      (some s, store)

/-! ## Invocation client (debate.ts `callModel`) -/

/-- One settled transport outcome for a single chat-completions call:
`reply c` is a fulfilled HTTP response whose `choices[0]?.message?.content`
is `c` (absent or empty content is still a fulfilled response); `failure m`
is a rejected call (network error, backend error, or the timeout abort,
already rewritten to its human-readable message). -/
inductive BackendReply where
  | reply (content : Option String)
  | failure (msg : String)
deriving DecidableEq, Repr

/-- The transport oracle: what the backend does for a given resolved model
and (system, user) message pair. -/
abbrev Backend : Type := ResolvedModel → String → String → BackendReply

/-- debate.ts `estimateTokens`: `Math.ceil(text.length / 4)`. -/
def estimateTokens (text : String) : Nat :=
  (text.length + 3) / 4

/-- The error message thrown by `callModel` when the backend returned no
content. -/
def emptyResponseMsg (label : String) : String :=
  "Model " ++ label ++ " returned an empty response"

/-- debate.ts `callModel` after the transport call: a missing or empty
`content` becomes an `EmptyResponse` failure, otherwise the text is
returned; a rejected call propagates its reason. (The request-shape switch
and the timeout-message rewrite only shape what the oracle reports and are
absorbed into `BackendReply`.) -/
def callModel (be : Backend) (model : ResolvedModel) (label : String)
    (systemMessage userMessage : String) : Except String String :=
  match be model systemMessage userMessage with
  | .failure msg => .error msg
  | .reply none => .error (emptyResponseMsg label)
  | .reply (some content) =>
    if content.isEmpty then .error (emptyResponseMsg label)
    else .ok content

/-! ## History compactor (debate.ts `buildHistoryContext`) -/

/-- debate.ts `MAX_CONTEXT_CHARS`. -/
def MAX_CONTEXT_CHARS : Nat := 12000

/-- The fixed truncation marker appended to a truncated response. -/
def truncMarker : String := "\n[...truncated for context limits]"

/-- JS truthiness of `resp.error`: defined and non-empty. -/
def errTruthy (r : RoundResponse) : Bool :=
  match r.error with
  | none => false
  | some e => !e.isEmpty

/-- JS `s.slice(0, n)` on the character model of strings. -/
def sliceChars (s : String) (n : Nat) : String :=
  (s.toList.take n).asString

/-- Sum of `resp.content.length` over the whole transcript (the first loop of
`buildHistoryContext`). -/
def totalContentChars (rounds : List (List RoundResponse)) : Nat :=
  (rounds.map (fun round => (round.map (fun resp => resp.content.length)).sum)).sum

/-- `rounds.reduce((n, r) => n + r.length, 0)`: the total response count,
failed responses included. -/
def totalResponses (rounds : List (List RoundResponse)) : Nat :=
  (rounds.map List.length).sum

/-- One response's rendering inside the history block. `needsTruncation`
and `maxPerResponse` replay the budget computed up front (the JS
`Infinity` cap is the `needsTruncation = false` case, where the length test
is never true). -/
def renderResponse (needsTruncation : Bool) (maxPerResponse : Nat)
    (resp : RoundResponse) : String :=
  if errTruthy resp then
    "[" ++ resp.modelId ++ "] (FAILED: " ++ resp.error.getD "" ++ ")\n"
  else
    let content :=
      if needsTruncation && resp.content.length > maxPerResponse then
        sliceChars resp.content maxPerResponse ++ truncMarker
      else resp.content
    "[" ++ resp.modelId ++ "]:\n" ++ content ++ "\n"

/-- One round's section: the round header line joined with each rendered
response by single newlines. -/
def renderRound (needsTruncation : Bool) (maxPerResponse : Nat) (r : Nat)
    (round : List RoundResponse) : String :=
  String.intercalate "\n"
    (("--- Round " ++ toString (r + 1) ++ " ---") ::
      round.map (renderResponse needsTruncation maxPerResponse))

/-- debate.ts `buildHistoryContext`: render the transcript grouped by round;
when the summed content length exceeds the budget, divide the budget evenly
across the total response count and truncate each response to that share. -/
def buildHistoryContext (rounds : List (List RoundResponse)) : String :=
  let totalChars := totalContentChars rounds
  let needsTruncation := totalChars > MAX_CONTEXT_CHARS
  let maxPerResponse := MAX_CONTEXT_CHARS / max (totalResponses rounds) 1
  let sections :=
    rounds.enum.map (fun p => renderRound needsTruncation maxPerResponse p.1 p.2)
  "=== Previous Responses ===\n\n" ++ String.intercalate "\n\n" sections

/-! ## Round orchestrator (debate.ts) -/

/-- One entry of the `models` array built at the top of a round:
`{ resolved: resolveModel(id), label: id }`. -/
structure LabeledModel where
  resolved : ResolvedModel
  label : String
deriving DecidableEq, Repr

/-- A `PromiseSettledResult<string>`. -/
inductive Settled where
  | fulfilled (value : String)
  | rejected (reason : String)
deriving DecidableEq, Repr

/-- `Promise.allSettled` wrapping of one call's outcome. -/
def settle (r : Except String String) : Settled :=
  match r with
  | .ok v => .fulfilled v
  | .error e => .rejected e

/-- `modelIdentifiers.map(id => ({ resolved: resolveModel(id), label: id }))`:
the first identifier whose resolution throws aborts the whole map, so the
result is all-or-first-error. -/
def resolveAll (providers : List ProviderConfig) :
    List String → Except ResolveError (List LabeledModel)
  | [] => .ok []
  | id :: ids =>
    match resolveModel providers id with
    | .error e => .error e
    | .ok m =>
      match resolveAll providers ids with
      | .error e => .error e
      | .ok ms => .ok ({ resolved := m, label := id } :: ms)

/-- debate.ts `collectRoundResponses`: map each settled result to a
`RoundResponse` carrying its model's label; a rejection yields empty content,
the reason in `error`, and adds the label to the failed set (threaded
left-to-right, as the JS `Set` mutation is). Returns the responses and the
updated failed set. -/
def collectRoundResponses :
    List Settled → List LabeledModel → Nat → List String →
      List RoundResponse × List String
  | [], _, _, failedSet => ([], failedSet)
  | _ :: _, [], _, failedSet => ([], failedSet)
  | .fulfilled value :: results, m :: ms, round, failedSet =>
    let rest := collectRoundResponses results ms round failedSet
    ({ modelId := m.label, round := round, content := value, error := none } :: rest.1,
      rest.2)
  | .rejected reason :: results, m :: ms, round, failedSet =>
    let rest := collectRoundResponses results ms round (setAdd failedSet m.label)
    ({ modelId := m.label, round := round, content := "", error := some reason } :: rest.1,
      rest.2)

/-- JS `a || b` for an optional string: `undefined` and `""` both fall back. -/
def orDefault (o : Option String) (d : String) : String :=
  match o with
  | none => d
  | some s => if s.isEmpty then d else s

/-- The default round-1 system prompt. -/
def round1SystemDefault : String :=
  "You are participating in a multi-model brainstorming debate. " ++
    "Provide your best thinking on the given topic. " ++
    "Be specific, creative, and substantive."

/-- The rounds-2+ system prompt of `runExternalRound`. -/
def refinementSystem (roundNumber totalRounds : Nat) : String :=
  "You are in round " ++ toString roundNumber ++ " of " ++ toString totalRounds ++
    " of a multi-model brainstorming debate. " ++
    "You can see all previous responses from all participants (including the host AI). " ++
    "Build upon the best ideas, challenge weak reasoning, add new perspectives, " ++
    "and refine your position. Be specific about what you agree/disagree with and why."

/-- The rounds-2+ user message: topic, compacted history, refinement ask. -/
def refinementUserMessage (topic history : String) (roundNumber : Nat) : String :=
  "Original topic: " ++ topic ++ "\n\n" ++ history ++ "\n\n" ++
    "Now provide your refined response for round " ++ toString roundNumber ++
    ". Consider all perspectives above."

/-- The (system, user) message pair a round sends to every model: round 1
frames the raw topic under the default-or-custom instruction; rounds 2+
embed the compactor's rendering of all prior rounds. -/
def roundPrompts (topic : String) (roundNumber totalRounds : Nat)
    (previousRounds : List (List RoundResponse)) (systemPrompt : Option String) :
    String × String :=
  if roundNumber == 1 then
    (orDefault systemPrompt round1SystemDefault, topic)
  else
    (refinementSystem roundNumber totalRounds,
      refinementUserMessage topic (buildHistoryContext previousRounds) roundNumber)

/-- debate.ts `runExternalRound`: resolve every identifier (the first
resolution failure escapes), build the round's prompts, issue one call per
model and collect all settled results into responses plus the failed-model
list. -/
def runExternalRound (providers : List ProviderConfig) (be : Backend)
    (topic : String) (modelIdentifiers : List String)
    (roundNumber totalRounds : Nat)
    (previousRounds : List (List RoundResponse)) (systemPrompt : Option String) :
    Except ResolveError (List RoundResponse × List String) :=
  match resolveAll providers modelIdentifiers with
  | .error e => .error e
  | .ok models =>
    let p := roundPrompts topic roundNumber totalRounds previousRounds systemPrompt
    let results :=
      models.map (fun m => settle (callModel be m.resolved m.label p.1 p.2))
    .ok (collectRoundResponses results models roundNumber [])

/-! ## Synthesis engine (debate.ts `runSynthesis`) -/

/-- The synthesis system prompt. -/
def synthesisSystem : String :=
  "You are the synthesizer in a multi-model brainstorming debate. " ++
    "Create a comprehensive, well-organized final output that: " ++
    "(1) Identifies the strongest ideas and points of consensus, " ++
    "(2) Notes important points of disagreement and why they matter, " ++
    "(3) Provides a clear, actionable conclusion. " ++
    "Be thorough but concise."

/-- The synthesis user message over the compacted full transcript. -/
def synthesisUserMessage (topic fullHistory : String) : String :=
  "Original topic: " ++ topic ++ "\n\n" ++ fullHistory ++ "\n\n" ++
    "Please synthesize the above debate into a comprehensive final output."

/-- The fixed fallback sentence returned when every synthesis attempt fails. -/
def synthesisFallback : String :=
  "Synthesis failed — all models encountered errors during the synthesis step. " ++
    "Please review the raw debate rounds above."

/-- One synthesis attempt with one identifier: resolve it then call it; any
thrown error (resolution or call) is surfaced uniformly, as the enclosing
`try`/`catch` sees it. -/
def attemptSynthesis (providers : List ProviderConfig) (be : Backend)
    (id : String) (sys usr : String) : Except String String :=
  match resolveModel providers id with
  | .error e => .error e.message
  | .ok m => callModel be m id sys usr

/-- The fallback loop of `runSynthesis`: try every participant except the
designated synthesizer in original list order, stopping at the first
success; when the list is exhausted return the fixed fallback sentence. -/
def synthesisFallbackLoop (providers : List ProviderConfig) (be : Backend)
    (synthId : String) (sys usr : String) : List String → String
  | [] => synthesisFallback
  | id :: rest =>
    if id == synthId then synthesisFallbackLoop providers be synthId sys usr rest
    else
      match attemptSynthesis providers be id sys usr with
      | .ok s => s
      | .error _ => synthesisFallbackLoop providers be synthId sys usr rest

/-- debate.ts `runSynthesis`: call the designated synthesizer over the
compacted full transcript; on any failure run the fallback loop. -/
def runSynthesis (providers : List ProviderConfig) (be : Backend)
    (topic : String) (allRounds : List (List RoundResponse))
    (synthesizerIdentifier : String) (modelIdentifiers : List String) : String :=
  let sys := synthesisSystem
  let usr := synthesisUserMessage topic (buildHistoryContext allRounds)
  match attemptSynthesis providers be synthesizerIdentifier sys usr with
  | .ok s => s
  | .error _ =>
    synthesisFallbackLoop providers be synthesizerIdentifier sys usr modelIdentifiers

/-- The resolution prelude of debate.ts `runDebate` (its lines 322-328):
resolve every participant identifier in order, then resolve the synthesizer
label (`synthesizerIdentifier || modelIdentifiers[0]`); the first failure
escapes to the caller before any model call is issued. -/
def runDebateResolvePhase (providers : List ProviderConfig)
    (modelIdentifiers : List String) (synthesizerIdentifier : Option String) :
    Except ResolveError (List LabeledModel × ResolvedModel) :=
  match resolveAll providers modelIdentifiers with
  | .error e => .error e
  | .ok models =>
    let synthesizerLabel := orDefault synthesizerIdentifier (modelIdentifiers.headD "")
    match resolveModel providers synthesizerLabel with
    | .error e => .error e
    | .ok m => .ok (models, m)

/-! ## The `brainstorm_respond` tool handler (tools/brainstorm-respond.ts) -/

/-- Aggregate statistics of a completed debate (types.ts `DebateStats`).
`estimatedCost` is a display string produced by floating-point dollar
arithmetic (`toFixed(4)`); it carries no behavioral content for the claims
and is not modelled. -/
structure DebateStats where
  totalDurationMs : Nat
  estimatedTokens : Nat
deriving DecidableEq, Repr

/-- A completed debate (types.ts `DebateResult`). -/
structure DebateResult where
  topic : String
  rounds : List (List RoundResponse)
  synthesis : String
  modelsFailed : List String
  stats : DebateStats
deriving DecidableEq, Repr

/-- JS `s.repeat(n)`. -/
def strRepeat (s : String) (n : Nat) : String :=
  String.join (List.replicate n s)

/-- The observable outcome of one `brainstorm_respond` tool call, keeping the
structured data behind each rendered text result. `notFound`,
`alreadyComplete` and `errorResult` are the `isError: true` results. -/
inductive RespondOutcome where
  | notFound
  | alreadyComplete
  | finalResult (result : DebateResult)
  | nextRound (sessionId : String) (roundNumber : Nat) (responses : List RoundResponse)
  | errorResult (msg : String)
deriving DecidableEq, Repr

/-- `session.rounds[idx].push(resp)`: `none` when `idx` is out of range,
which in JS is a `TypeError` on `undefined.push` caught by the handler's
outer `catch`. -/
def pushAt : List (List RoundResponse) → Nat → RoundResponse →
    Option (List (List RoundResponse))
  | [], _, _ => none
  | r :: rs, 0, x => some ((r ++ [x]) :: rs)
  | r :: rs, n + 1, x => (pushAt rs n x).map (fun tail => r :: tail)

/-- The message of the `TypeError` raised by `session.rounds[currentRound-1]`
being `undefined`; its exact JS wording is irrelevant to the claims. -/
def respondIndexErrorMsg : String :=
  "brainstorm_respond failed: Cannot read properties of undefined"

/-- The host's contribution as stored into the current round. -/
def hostResponse (round : Nat) (response : String) : RoundResponse :=
  { modelId := "claude:host", round := round, content := response, error := none }

/-- The final-round branch of `brainstorm_respond`: run synthesis over the
full transcript (host contribution already appended into `session1`),
account its length, assemble the `DebateResult`, mark the session complete,
delete it from the store, and return the full result. `store2` already holds
the appended-and-accounted session. -/
def respondFinal (providers : List ProviderConfig) (be : Backend) (now : Nat)
    (store2 : SessionStore) (sessionId : String) (session1 : DebateSession) :
    RespondOutcome × SessionStore :=
  let synthesis := runSynthesis providers be session1.topic session1.rounds
    session1.synthesizerIdentifier session1.modelIdentifiers
  let session2 :=
    { session1 with totalCharsProcessed := session1.totalCharsProcessed + synthesis.length }
  let totalDurationMs := now - session2.startTime
  let estimatedTokensVal :=
    estimateTokens (strRepeat session2.topic session2.totalRounds) +
      (session2.totalCharsProcessed + 3) / 4
  let result : DebateResult :=
    { topic := session2.topic
      rounds := session2.rounds
      synthesis := synthesis
      modelsFailed := session2.failedModels
      stats := { totalDurationMs := totalDurationMs, estimatedTokens := estimatedTokensVal } }
  let session3 := { session2 with status := SessionStatus.complete }
  let store3 := storeSet store2 session3
  (.finalResult result, storeDelete store3 sessionId)

/-- The more-rounds branch of `brainstorm_respond`: run the next external
round over the transcript so far (host turn included). A thrown resolution
error is caught by the handler's outer `catch` and rendered as an error
result — the already-written host contribution stays in the store. On
success the round's responses are appended, `currentRound` advanced, and the
failed set merged. -/
def respondAdvance (providers : List ProviderConfig) (be : Backend)
    (store2 : SessionStore) (sessionId : String) (session1 : DebateSession)
    (nextRound : Nat) : RespondOutcome × SessionStore :=
  match runExternalRound providers be session1.topic session1.modelIdentifiers
      nextRound session1.totalRounds session1.rounds session1.systemPrompt with
  | .error e =>
    (.errorResult ("brainstorm_respond failed: " ++ e.message), store2)
  | .ok (nextResponses, failedModels) =>
    let session2 :=
      { session1 with
          rounds := session1.rounds ++ [nextResponses]
          currentRound := nextRound
          totalCharsProcessed := session1.totalCharsProcessed +
            (nextResponses.map (fun r => r.content.length)).sum
          failedModels := failedModels.foldl setAdd session1.failedModels }
    (.nextRound sessionId nextRound nextResponses, storeSet store2 session2)

/-- The body of `brainstorm_respond` once the session has been fetched:
reject a completed session, append the host contribution to the current
round (writing through to the store, as the JS mutation of the shared
session object does), account its length, then either synthesize (final
round) or advance one round. A zero `currentRound`, like an out-of-range
index, is the JS `TypeError` on `rounds[currentRound - 1]` being
`undefined`, caught by the handler's outer `catch`. -/
def brainstormRespondFound (providers : List ProviderConfig) (be : Backend)
    (now : Nat) (store1 : SessionStore) (sessionId : String) (response : String)
    (session : DebateSession) : RespondOutcome × SessionStore :=
  if session.status == SessionStatus.complete then
    (.alreadyComplete, store1)
  else if session.currentRound == 0 then
    (.errorResult respondIndexErrorMsg, store1)
  else
    match pushAt session.rounds (session.currentRound - 1)
        (hostResponse session.currentRound response) with
    | none => (.errorResult respondIndexErrorMsg, store1)
    | some rounds1 =>
      let session1 :=
        { session with
            rounds := rounds1
            totalCharsProcessed := session.totalCharsProcessed + response.length }
      let store2 := storeSet store1 session1
      if session1.totalRounds ≤ session.currentRound then
        respondFinal providers be now store2 sessionId session1
      else
        respondAdvance providers be store2 sessionId session1 (session.currentRound + 1)

/-- tools/brainstorm-respond.ts handler: fetch the session (lazily evicting
when expired), then process the host contribution. -/
def brainstormRespond (providers : List ProviderConfig) (be : Backend)
    (now : Nat) (store : SessionStore) (sessionId : String) (response : String) :
    RespondOutcome × SessionStore :=
  match getSession now store sessionId with
  | (none, store1) => (.notFound, store1)
  | (some session, store1) =>
    brainstormRespondFound providers be now store1 sessionId response session

/-! ## Helper lemmas -/

/-- A string that is not `isEmpty` is not the empty string. -/
lemma ne_empty_of_isEmpty_false {s : String} (h : s.isEmpty = false) : s ≠ "" := by
  intro he
  have : s.isEmpty = true := (String.isEmpty_iff s).mpr he
  rw [this] at h
  cases h

/-- Deleting a key removes it from the lookup. -/
lemma storeGet_storeDelete (st : SessionStore) (id : String) :
    storeGet (storeDelete st id) id = none := by
  induction st with
  | nil => rfl
  | cons s st ih =>
    simp only [storeDelete, storeGet] at ih
    by_cases h : (s.id == id) = true
    · simp [storeDelete, storeGet, List.filter_cons, h, ih]
    · have h' : (s.id == id) = false := by
        cases hb : (s.id == id) <;> simp_all
      simp [storeDelete, storeGet, List.filter_cons, List.find?_cons, h', ih]

/-- A `brainstorm_respond` call whose session id is absent from the store
signals not-found and leaves the store unchanged. -/
lemma brainstormRespond_absent (ps : List ProviderConfig) (be : Backend)
    (now : Nat) (store : SessionStore) (id response : String)
    (h : storeGet store id = none) :
    brainstormRespond ps be now store id response = (.notFound, store) := by
  simp [brainstormRespond, getSession, h]

/-! ## Demo registry and backend used by concrete witnesses -/

/-- A two-provider registry, as loaded from a typical config. -/
def psDemo : List ProviderConfig :=
  [{ name := "openai", baseURL := "https://api.openai.com/v1",
     apiKeyEnvVar := "OPENAI_API_KEY", defaultModel := "gpt-4o" },
   { name := "deepseek", baseURL := "https://api.deepseek.com",
     apiKeyEnvVar := "DEEPSEEK_API_KEY", defaultModel := "deepseek-chat" }]

/-- A backend where openai-backed models answer and every other call fails. -/
def beDemo : Backend := fun m _ _ =>
  if m.provider == "openai" then .reply (some "Alpha idea.")
  else .failure "Model deepseek:deepseek-chat timed out after 120s"

/-- The labeled models `resolveAll` yields on `psDemo` for the two demo
identifiers. -/
def modelsDemo : List LabeledModel :=
  [{ resolved :=
       { provider := "openai", modelId := "gpt-4o",
         baseURL := "https://api.openai.com/v1", apiKeyEnvVar := "OPENAI_API_KEY" },
     label := "openai:gpt-4o" },
   { resolved :=
       { provider := "deepseek", modelId := "deepseek-chat",
         baseURL := "https://api.deepseek.com", apiKeyEnvVar := "DEEPSEEK_API_KEY" },
     label := "deepseek:deepseek-chat" }]

/-- The responses of the demo round: one success, one timeout entry. -/
def respDemo : List RoundResponse :=
  [{ modelId := "openai:gpt-4o", round := 1, content := "Alpha idea.", error := none },
   { modelId := "deepseek:deepseek-chat", round := 1, content := "",
     error := some "Model deepseek:deepseek-chat timed out after 120s" }]

/-- The failed-model list of the demo round. -/
def failedDemo : List String := ["deepseek:deepseek-chat"]

/-- A 12001-character response content, one character over the budget. -/
def c2BigContent : String := String.mk (List.replicate 12001 'a')

/-- A one-round, one-response transcript whose content exceeds the budget. -/
def c2RoundsDemo : List (List RoundResponse) :=
  [[{ modelId := "openai:gpt-4o", round := 1, content := c2BigContent, error := none }]]

/-! ## C8: the model resolver contract -/

/-- **C8.** `resolveModel` succeeds exactly when the identifier has a first
colon, a non-empty model portion after it, and a registered provider before
it; a missing colon or empty model portion fails with `InvalidIdentifier`,
an unregistered provider with `UnknownProvider`. -/
theorem c8_resolveModel_contract (ps : List ProviderConfig) (id : String) :
    (exceptOk (resolveModel ps id) = true ↔
      ((firstColonIdx id).isSome = true ∧ modelPortion id ≠ "" ∧
        (getProvider ps (providerPortion id)).isSome = true))
    ∧ (firstColonIdx id = none →
        ∃ msg, resolveModel ps id = .error (.invalidIdentifier msg))
    ∧ ((firstColonIdx id).isSome = true → modelPortion id = "" →
        ∃ msg, resolveModel ps id = .error (.invalidIdentifier msg))
    ∧ ((firstColonIdx id).isSome = true → modelPortion id ≠ "" →
        getProvider ps (providerPortion id) = none →
        ∃ msg, resolveModel ps id = .error (.unknownProvider msg)) := by
  cases h : firstColonIdx id with
  | none =>
    have hr : resolveModel ps id = .error (.invalidIdentifier
        ("Invalid format \"" ++ id ++
          "\". Use \"provider:model\" (e.g. \"openai:gpt-4o\"). Available: " ++
          availableProviders ps)) := by
      simp only [resolveModel, h]
    refine ⟨?_, fun _ => ⟨_, hr⟩, by simp [h], by simp [h]⟩
    simp [hr, h, exceptOk]
  | some i =>
    have hm : modelPortion id = (id.toList.drop (i + 1)).asString := by
      simp [modelPortion, h]
    have hp : providerPortion id = (id.toList.take i).asString := by
      simp [providerPortion, h]
    by_cases hempty : ((id.toList.drop (i + 1)).asString).isEmpty = true
    · have hmo : modelPortion id = "" := by
        rw [hm]; exact (String.isEmpty_iff _).mp hempty
      have hr : resolveModel ps id = .error (.invalidIdentifier
          ("No model in \"" ++ id ++ "\". Use \"provider:model\" format.")) := by
        simp only [resolveModel, h, hempty, if_pos]
      refine ⟨?_, by simp [h], fun _ _ => ⟨_, hr⟩, ?_⟩
      · simp [hr, exceptOk, hmo]
      · intro _ hne _; exact absurd hmo hne
    · have hbe : ((id.toList.drop (i + 1)).asString).isEmpty ≠ true := hempty
      have hne : modelPortion id ≠ "" := by
        rw [hm]
        exact ne_empty_of_isEmpty_false (by cases hb : ((id.toList.drop (i + 1)).asString).isEmpty <;> simp_all)
      cases hg : getProvider ps ((id.toList.take i).asString) with
      | none =>
        have hr : resolveModel ps id = .error (.unknownProvider
            ("Unknown provider \"" ++ (id.toList.take i).asString ++
              "\". Available: " ++ availableProviders ps)) := by
          simp only [resolveModel, h, if_neg hbe, hg]
        refine ⟨?_, by simp [h], fun _ hmo => absurd hmo hne, fun _ _ _ => ⟨_, hr⟩⟩
        rw [hr]
        constructor
        · intro hx; exact absurd hx (by simp [exceptOk])
        · rintro ⟨-, -, hiso⟩
          rw [hp, hg] at hiso
          exact absurd hiso (by simp)
      | some p =>
        have hr : resolveModel ps id = .ok
            { provider := (id.toList.take i).asString
              modelId := (id.toList.drop (i + 1)).asString
              baseURL := p.baseURL
              apiKeyEnvVar := p.apiKeyEnvVar } := by
          simp only [resolveModel, h, if_neg hbe, hg]
        refine ⟨?_, by simp [h], fun _ hmo => absurd hmo hne, fun _ _ hgo => ?_⟩
        · rw [hr]
          constructor
          · intro _
            refine ⟨by simp [h], hne, ?_⟩
            rw [hp, hg]
            rfl
          · intro _; rfl
        · rw [hp] at hgo; rw [hgo] at hg; cases hg

/-- Witness for C8 at a concrete identifier with no colon. -/
theorem c8_witness :
    ∃ msg, resolveModel psDemo "plainstring" =
      Except.error (ResolveError.invalidIdentifier msg) :=
  (c8_resolveModel_contract psDemo "plainstring").2.1 (by decide)

/-! ## C5: getSession TTL boundary (corrected) -/

/-- A session created at time 0, used for the C5 boundary counterexample. -/
def c5Session : DebateSession :=
  { id := "sid", topic := "t", modelIdentifiers := ["openai:gpt-4o"],
    totalRounds := 2, currentRound := 1, rounds := [[]],
    synthesizerIdentifier := "openai:gpt-4o", systemPrompt := none,
    failedModels := [], startTime := 0, createdAt := 0,
    totalCharsProcessed := 0, status := .awaiting_host }

/-- **C5 counterexample.** At age exactly ten minutes the age is not
strictly below the TTL, yet `getSession` still returns the session: the code
expires only strictly beyond the TTL (`>`), so the claim's strict-less-than
bound is wrong at the boundary. -/
theorem c5_counterexample :
    (getSession 600000 [c5Session] "sid").1 = some c5Session ∧
    ¬(600000 - c5Session.createdAt < SESSION_TTL_MS) :=
  ⟨by decide, by decide⟩

/-- **C5 (amended).** `getSession` returns the session iff it is present and
its age is at most the TTL (expiry strictly beyond ten minutes); whenever it
signals absence, the returned store no longer holds the id — lazy eviction
at access time. -/
theorem c5_getSession_ttl (now : Nat) (store : SessionStore) (id : String) :
    (∀ s, (getSession now store id).1 = some s ↔
        (storeGet store id = some s ∧ now - s.createdAt ≤ SESSION_TTL_MS))
    ∧ ((getSession now store id).1 = none →
        storeGet (getSession now store id).2 id = none) := by
  cases h : storeGet store id with
  | none =>
    refine ⟨fun s => ?_, fun _ => ?_⟩
    · simp [getSession, h]
    · simp [getSession, h]
  | some t =>
    by_cases hexp : now - t.createdAt > SESSION_TTL_MS
    · refine ⟨fun s => ?_, fun _ => ?_⟩
      · simp only [getSession, h, if_pos hexp]
        constructor
        · intro hs; cases hs
        · rintro ⟨hs, hle⟩; cases hs; exact absurd hle (by omega)
      · simp only [getSession, h, if_pos hexp]
        exact storeGet_storeDelete store id
    · refine ⟨fun s => ?_, fun hnone => ?_⟩
      · simp only [getSession, h, if_neg hexp]
        constructor
        · intro hs; cases hs; exact ⟨rfl, by omega⟩
        · rintro ⟨hs, _⟩; exact hs
      · simp only [getSession, h, if_neg hexp] at hnone
        cases hnone

/-- Witness for C5's amended theorem: an expired session is gone from the
store after the failed lookup. -/
theorem c5_witness :
    storeGet (getSession 700000 [c5Session] "sid").2 "sid" = none :=
  (c5_getSession_ttl 700000 [c5Session] "sid").2 (by decide)

/-! ## Lemmas about the invocation client and settled-result collection -/

/-- A fulfilled `callModel` never carries an empty string: an empty backend
reply is converted into an `EmptyResponse` failure. -/
lemma callModel_ok_ne_empty {be : Backend} {m : ResolvedModel}
    {label sys usr v : String} (h : callModel be m label sys usr = .ok v) :
    v ≠ "" := by
  cases hb : be m sys usr with
  | failure msg => simp [callModel, hb] at h
  | reply content =>
    cases content with
    | none => simp [callModel, hb] at h
    | some c =>
      by_cases hc : c.isEmpty = true
      · simp [callModel, hb, hc] at h
      · simp only [callModel, hb, if_neg hc] at h
        injection h with hcv
        subst hcv
        exact ne_empty_of_isEmpty_false (by cases hx : c.isEmpty <;> simp_all)

/-- The `RoundResponse` that `collectRoundResponses` builds for one model
from its settled outcome. -/
def respOf (n : Nat) (m : LabeledModel) : Settled → RoundResponse
  | .fulfilled v => { modelId := m.label, round := n, content := v, error := none }
  | .rejected r => { modelId := m.label, round := n, content := "", error := some r }

lemma respOf_modelId (n : Nat) (m : LabeledModel) (s : Settled) :
    (respOf n m s).modelId = m.label := by
  cases s <;> rfl

lemma respOf_round (n : Nat) (m : LabeledModel) (s : Settled) :
    (respOf n m s).round = n := by
  cases s <;> rfl

/-- Collecting the settled outcomes of one call per model yields exactly one
response per model, in fan-out order, independent of the incoming failed
set. -/
lemma collect_map (f : LabeledModel → Settled) (n : Nat) :
    ∀ (models : List LabeledModel) (fs : List String),
      (collectRoundResponses (models.map f) models n fs).1 =
        models.map (fun m => respOf n m (f m)) := by
  intro models
  induction models with
  | nil => intro fs; rfl
  | cons m ms ih =>
    intro fs
    cases hf : f m with
    | fulfilled v =>
      simp [List.map_cons, collectRoundResponses, hf, respOf, ih]
    | rejected r =>
      simp [List.map_cons, collectRoundResponses, hf, respOf, ih]

/-- A successful up-front resolution keeps the identifiers as labels, in
order. -/
lemma resolveAll_ok_labels {ps : List ProviderConfig} :
    ∀ {ids : List String} {models : List LabeledModel},
      resolveAll ps ids = .ok models → models.map (fun m => m.label) = ids := by
  intro ids
  induction ids with
  | nil => intro models h; cases h; rfl
  | cons id rest ih =>
    intro models h
    unfold resolveAll at h
    cases hr : resolveModel ps id with
    | error e => rw [hr] at h; cases h
    | ok m =>
      rw [hr] at h
      cases ha : resolveAll ps rest with
      | error e => rw [ha] at h; cases h
      | ok ms =>
        rw [ha] at h
        cases h
        simp [ih ha]

/-- The up-front resolution succeeds iff every identifier resolves. -/
lemma exceptOk_resolveAll (ps : List ProviderConfig) :
    ∀ ids : List String,
      exceptOk (resolveAll ps ids) =
        ids.all (fun id => exceptOk (resolveModel ps id)) := by
  intro ids
  induction ids with
  | nil => rfl
  | cons id rest ih =>
    cases hr : resolveModel ps id with
    | error e => simp [resolveAll, hr, exceptOk]
    | ok m =>
      cases ha : resolveAll ps rest with
      | error e =>
        have h1 : resolveAll ps (id :: rest) = Except.error e := by
          simp only [resolveAll, hr, ha]
        rw [h1, List.all_cons, ← ih]
        show exceptOk (Except.error e : Except ResolveError (List LabeledModel)) =
          (exceptOk (resolveModel ps id) && exceptOk (resolveAll ps rest))
        rw [hr, ha]
        rfl
      | ok ms =>
        have h1 : resolveAll ps (id :: rest) =
            Except.ok ({ resolved := m, label := id } :: ms) := by
          simp only [resolveAll, hr, ha]
        rw [h1, List.all_cons, ← ih]
        show exceptOk (Except.ok ({ resolved := m, label := id } :: ms) :
            Except ResolveError (List LabeledModel)) =
          (exceptOk (resolveModel ps id) && exceptOk (resolveAll ps rest))
        rw [hr, ha]
        rfl

/-- A successful round is the per-model collection of the settled call
outcomes under the round's prompts. -/
lemma runExternalRound_ok_eq (ps : List ProviderConfig) (be : Backend)
    (topic : String) (ids : List String) (n total : Nat)
    (prev : List (List RoundResponse)) (sp : Option String)
    (models : List LabeledModel) (h : resolveAll ps ids = .ok models) :
    ∃ failed,
      runExternalRound ps be topic ids n total prev sp =
        .ok (models.map (fun m => respOf n m (settle (callModel be m.resolved m.label
          (roundPrompts topic n total prev sp).1
          (roundPrompts topic n total prev sp).2))), failed) := by
  refine ⟨(collectRoundResponses
      (models.map (fun m => settle (callModel be m.resolved m.label
        (roundPrompts topic n total prev sp).1
        (roundPrompts topic n total prev sp).2))) models n []).2, ?_⟩
  rw [← collect_map (fun m => settle (callModel be m.resolved m.label
    (roundPrompts topic n total prev sp).1
    (roundPrompts topic n total prev sp).2)) n models []]
  simp only [runExternalRound, h]

/-! ## C3: synthesis always returns non-empty text -/

/-- A successful synthesis attempt never carries an empty string. -/
lemma attemptSynthesis_ok_ne_empty {ps : List ProviderConfig} {be : Backend}
    {id sys usr s : String} (h : attemptSynthesis ps be id sys usr = .ok s) :
    s ≠ "" := by
  unfold attemptSynthesis at h
  cases hr : resolveModel ps id with
  | error e => rw [hr] at h; cases h
  | ok m => rw [hr] at h; exact callModel_ok_ne_empty h

/-- The fallback loop is the first success among the non-synthesizer
participants in original order, with the fixed sentence when none succeeds. -/
lemma synthesisFallbackLoop_eq (ps : List ProviderConfig) (be : Backend)
    (synthId sys usr : String) :
    ∀ l : List String,
      synthesisFallbackLoop ps be synthId sys usr l =
        ((l.filter (fun id => !(id == synthId))).findSome?
          (fun id => (attemptSynthesis ps be id sys usr).toOption)).getD
          synthesisFallback := by
  intro l
  induction l with
  | nil => rfl
  | cons id rest ih =>
    by_cases hid : (id == synthId) = true
    · simp [synthesisFallbackLoop, hid, List.filter_cons, ih]
    · have hid' : (id == synthId) = false := by
        cases hb : (id == synthId) <;> simp_all
      cases ha : attemptSynthesis ps be id sys usr with
      | ok s =>
        simp [synthesisFallbackLoop, hid', List.filter_cons, ha, Except.toOption]
      | error e =>
        simp [synthesisFallbackLoop, hid', List.filter_cons, ha, Except.toOption, ih]

/-- The fallback loop never returns the empty string. -/
lemma synthesisFallbackLoop_ne_empty (ps : List ProviderConfig) (be : Backend)
    (synthId sys usr : String) :
    ∀ l : List String, synthesisFallbackLoop ps be synthId sys usr l ≠ "" := by
  intro l
  induction l with
  | nil =>
    show synthesisFallback ≠ ""
    decide
  | cons id rest ih =>
    by_cases hid : (id == synthId) = true
    · simpa [synthesisFallbackLoop, hid] using ih
    · have hid' : (id == synthId) = false := by
        cases hb : (id == synthId) <;> simp_all
      cases ha : attemptSynthesis ps be id sys usr with
      | ok s =>
        simpa [synthesisFallbackLoop, hid', ha] using attemptSynthesis_ok_ne_empty ha
      | error e =>
        simpa [synthesisFallbackLoop, hid', ha] using ih

/-- **C3.** `runSynthesis` never raises outward and always returns non-empty
text: it is the designated synthesizer's answer when that attempt succeeds,
otherwise the first success among the other participants in original list
order, otherwise the fixed fallback sentence. -/
theorem c3_runSynthesis_total (ps : List ProviderConfig) (be : Backend)
    (topic : String) (allRounds : List (List RoundResponse))
    (synthId : String) (ids : List String) :
    runSynthesis ps be topic allRounds synthId ids ≠ "" ∧
    runSynthesis ps be topic allRounds synthId ids =
      ((attemptSynthesis ps be synthId synthesisSystem
          (synthesisUserMessage topic (buildHistoryContext allRounds))).toOption).getD
        (((ids.filter (fun id => !(id == synthId))).findSome?
            (fun id => (attemptSynthesis ps be id synthesisSystem
              (synthesisUserMessage topic (buildHistoryContext allRounds))).toOption)).getD
          synthesisFallback) := by
  cases ha : attemptSynthesis ps be synthId synthesisSystem
      (synthesisUserMessage topic (buildHistoryContext allRounds)) with
  | ok s =>
    constructor
    · simpa [runSynthesis, ha] using attemptSynthesis_ok_ne_empty ha
    · simp [runSynthesis, ha, Except.toOption]
  | error e =>
    constructor
    · simpa [runSynthesis, ha] using
        synthesisFallbackLoop_ne_empty ps be synthId synthesisSystem
          (synthesisUserMessage topic (buildHistoryContext allRounds)) ids
    · simp only [runSynthesis, ha, Except.toOption]
      exact synthesisFallbackLoop_eq ps be synthId synthesisSystem
        (synthesisUserMessage topic (buildHistoryContext allRounds)) ids

/-! ## C4: a round settles every model and returns one response per model -/

/-- **C4.** When every identifier resolves, the round returns exactly one
response per model — labels in fan-out order, a failing call producing an
error entry rather than a missing one — and each entry is exactly the
settled outcome of that model's bounded call, for every possible backend
behavior (so for any subset of call-time failures). -/
theorem c4_round_settles_all (ps : List ProviderConfig) (be : Backend)
    (topic : String) (ids : List String) (n total : Nat)
    (prev : List (List RoundResponse)) (sp : Option String)
    (models : List LabeledModel) (h : resolveAll ps ids = .ok models) :
    ∃ responses failed,
      runExternalRound ps be topic ids n total prev sp = .ok (responses, failed) ∧
      responses.length = ids.length ∧
      responses.map (fun r => r.modelId) = ids ∧
      (∀ r ∈ responses, r.round = n) ∧
      responses = models.map (fun m => respOf n m (settle (callModel be m.resolved m.label
        (roundPrompts topic n total prev sp).1
        (roundPrompts topic n total prev sp).2))) := by
  obtain ⟨failed, hrun⟩ := runExternalRound_ok_eq ps be topic ids n total prev sp models h
  refine ⟨_, failed, hrun, ?_, ?_, ?_, rfl⟩
  · rw [List.length_map, ← resolveAll_ok_labels h, List.length_map]
  · rw [List.map_map]
    have : (fun r => r.modelId) ∘
        (fun m => respOf n m (settle (callModel be m.resolved m.label
          (roundPrompts topic n total prev sp).1
          (roundPrompts topic n total prev sp).2))) =
        fun m : LabeledModel => m.label := by
      funext m
      simp [Function.comp, respOf_modelId]
    rw [this]
    exact resolveAll_ok_labels h
  · intro r hr
    obtain ⟨m, _, hm⟩ := List.mem_map.mp hr
    rw [← hm]
    exact respOf_round n m _

/-- Witness for C4: two models, the deepseek call times out, yet the round
returns two entries in order. -/
theorem c4_witness :
    ∃ responses failed,
      runExternalRound psDemo beDemo "Topic" ["openai:gpt-4o", "deepseek:deepseek-chat"]
          1 2 [] none = .ok (responses, failed) ∧
      responses.length = ["openai:gpt-4o", "deepseek:deepseek-chat"].length ∧
      responses.map (fun r => r.modelId) = ["openai:gpt-4o", "deepseek:deepseek-chat"] ∧
      (∀ r ∈ responses, r.round = 1) ∧
      responses = modelsDemo.map (fun m => respOf 1 m (settle (callModel beDemo m.resolved m.label
        (roundPrompts "Topic" 1 2 [] none).1
        (roundPrompts "Topic" 1 2 [] none).2))) :=
  c4_round_settles_all psDemo beDemo "Topic" ["openai:gpt-4o", "deepseek:deepseek-chat"]
    1 2 [] none modelsDemo (by decide)

/-! ## C9: content/error exclusivity of collected responses -/

/-- **C9.** Every response of a successful round has either an error and
empty content, or no error and non-empty content (an empty backend reply is
converted into a failure before collection). -/
theorem c9_content_error_exclusive (ps : List ProviderConfig) (be : Backend)
    (topic : String) (ids : List String) (n total : Nat)
    (prev : List (List RoundResponse)) (sp : Option String)
    (responses : List RoundResponse) (failed : List String)
    (h : runExternalRound ps be topic ids n total prev sp = .ok (responses, failed)) :
    ∀ r ∈ responses,
      ((∃ e, r.error = some e) ∧ r.content = "") ∨
      (r.error = none ∧ r.content ≠ "") := by
  cases hra : resolveAll ps ids with
  | error e =>
    rw [show runExternalRound ps be topic ids n total prev sp = .error e by
      simp only [runExternalRound, hra]] at h
    cases h
  | ok models =>
    obtain ⟨failed1, hrun⟩ := runExternalRound_ok_eq ps be topic ids n total prev sp models hra
    rw [hrun] at h
    cases h
    intro r hr
    obtain ⟨m, _, hm⟩ := List.mem_map.mp hr
    cases hc : callModel be m.resolved m.label
        (roundPrompts topic n total prev sp).1
        (roundPrompts topic n total prev sp).2 with
    | ok v =>
      rw [← hm, hc]
      right
      exact ⟨rfl, callModel_ok_ne_empty hc⟩
    | error e =>
      rw [← hm, hc]
      left
      exact ⟨⟨e, rfl⟩, rfl⟩

/-- The timed-out model's entry in the demo round. -/
def c9Resp : RoundResponse :=
  { modelId := "deepseek:deepseek-chat", round := 1, content := "",
    error := some "Model deepseek:deepseek-chat timed out after 120s" }

/-- Witness for C9 at the timed-out entry of the two-model demo round. -/
theorem c9_witness :
    ((∃ e, c9Resp.error = some e) ∧ c9Resp.content = "") ∨
    (c9Resp.error = none ∧ c9Resp.content ≠ "") :=
  c9_content_error_exclusive psDemo beDemo "Topic"
    ["openai:gpt-4o", "deepseek:deepseek-chat"] 1 2 [] none
    respDemo failedDemo (by decide) c9Resp (by decide)

/-! ## C1: resolution failures abort the round (corrected) -/

/-- **C1 counterexample.** With one resolvable and one unresolvable
identifier, the round throws the resolution error instead of returning a
response for the resolvable model — a single resolution failure escapes even
though not all models failed to resolve. -/
theorem c1_counterexample :
    (∃ msg, runExternalRound psDemo beDemo "Topic" ["openai:gpt-4o", "ghost:model"]
        1 2 [] none = .error (.unknownProvider msg)) ∧
    exceptOk (resolveModel psDemo "openai:gpt-4o") = true :=
  ⟨⟨"Unknown provider \"ghost\". Available: openai, deepseek", by decide⟩, by decide⟩

/-- **C1 (amended).** Resolution errors are not collected per-model: a round
succeeds iff every identifier resolves, and the first resolution failure
escapes unchanged from `runExternalRound` and from `runDebate`'s resolution
prelude, aborting before any call is issued. -/
theorem c1_resolution_aborts_round (ps : List ProviderConfig) (be : Backend)
    (topic : String) (ids : List String) (n total : Nat)
    (prev : List (List RoundResponse)) (sp : Option String)
    (synth : Option String) :
    (exceptOk (runExternalRound ps be topic ids n total prev sp) =
      ids.all (fun id => exceptOk (resolveModel ps id)))
    ∧ (∀ e, resolveAll ps ids = .error e →
        runExternalRound ps be topic ids n total prev sp = .error e)
    ∧ (∀ e, resolveAll ps ids = .error e →
        runDebateResolvePhase ps ids synth = .error e) := by
  refine ⟨?_, ?_, ?_⟩
  · rw [← exceptOk_resolveAll]
    cases h : resolveAll ps ids with
    | error e => simp [runExternalRound, h, exceptOk]
    | ok ms => simp [runExternalRound, h, exceptOk]
  · intro e h
    simp [runExternalRound, h]
  · intro e h
    simp [runDebateResolvePhase, h]

/-- Witness for C1's amended theorem: the unresolvable second identifier's
error escapes from `runDebate`'s resolution prelude. -/
theorem c1_witness :
    runDebateResolvePhase psDemo ["openai:gpt-4o", "ghost:model"] none =
      .error (.unknownProvider "Unknown provider \"ghost\". Available: openai, deepseek") :=
  (c1_resolution_aborts_round psDemo beDemo "Topic" ["openai:gpt-4o", "ghost:model"]
      1 2 [] none none).2.2
    (ResolveError.unknownProvider "Unknown provider \"ghost\". Available: openai, deepseek")
    (by decide)

/-! ## C2: history compaction under overflow -/

/-- A transcript with content has at least one response. -/
lemma totalResponses_pos (rounds : List (List RoundResponse))
    (h : 0 < totalContentChars rounds) : 0 < totalResponses rounds := by
  by_contra hn
  push_neg at hn
  have h0 : totalResponses rounds = 0 := Nat.le_zero.mp hn
  have hall : ∀ round ∈ rounds, round = [] := by
    intro round hr
    have hx := List.sum_eq_zero_iff.mp h0 round.length
      (List.mem_map_of_mem _ hr)
    exact List.length_eq_zero.mp hx
  have hzero : totalContentChars rounds = 0 := by
    unfold totalContentChars
    apply List.sum_eq_zero_iff.mpr
    intro x hx
    obtain ⟨round, hr, hxx⟩ := List.mem_map.mp hx
    rw [hall round hr] at hxx
    simpa using hxx.symm
  omega

/-- A JS `slice(0, n)` never exceeds `n` characters. -/
lemma sliceChars_length_le (s : String) (n : Nat) : (sliceChars s n).length ≤ n := by
  show (s.toList.take n).asString.length ≤ n
  rw [show ((s.toList.take n).asString).length = (s.toList.take n).length from rfl]
  rw [List.length_take]
  exact Nat.min_le_left n s.toList.length

/-- **C2.** When the summed content length exceeds the 12000-character
budget, the history is rendered with the per-response cap
`⌊budget / totalResponses⌋` (failed responses counted in the divisor): a
failed response renders only its failure marker with the stored error text
and no content, and every other response contributes at most the cap's worth
of content characters, plus the fixed truncation marker when cut. -/
theorem c2_history_budget (rounds : List (List RoundResponse))
    (hover : totalContentChars rounds > MAX_CONTEXT_CHARS) :
    buildHistoryContext rounds =
      "=== Previous Responses ===\n\n" ++ String.intercalate "\n\n"
        (rounds.enum.map (fun p =>
          renderRound true (MAX_CONTEXT_CHARS / totalResponses rounds) p.1 p.2)) ∧
    ∀ round ∈ rounds, ∀ resp ∈ round,
      (errTruthy resp = true →
        renderResponse true (MAX_CONTEXT_CHARS / totalResponses rounds) resp =
          "[" ++ resp.modelId ++ "] (FAILED: " ++ resp.error.getD "" ++ ")\n") ∧
      (errTruthy resp = false →
        ∃ c, renderResponse true (MAX_CONTEXT_CHARS / totalResponses rounds) resp =
            "[" ++ resp.modelId ++ "]:\n" ++ c ++ "\n" ∧
          ((c = resp.content ∧
              resp.content.length ≤ MAX_CONTEXT_CHARS / totalResponses rounds) ∨
            (c = sliceChars resp.content (MAX_CONTEXT_CHARS / totalResponses rounds)
                ++ truncMarker ∧
              (sliceChars resp.content
                  (MAX_CONTEXT_CHARS / totalResponses rounds)).length ≤
                MAX_CONTEXT_CHARS / totalResponses rounds))) := by
  have hpos : 0 < totalResponses rounds := by
    apply totalResponses_pos
    have : (0 : Nat) < MAX_CONTEXT_CHARS := by decide
    omega
  have hmax : max (totalResponses rounds) 1 = totalResponses rounds :=
    Nat.max_eq_left hpos
  constructor
  · simp only [buildHistoryContext]
    rw [decide_eq_true hover, hmax]
  · intro round _ resp _
    constructor
    · intro herr
      simp [renderResponse, herr]
    · intro herr
      by_cases hlen :
          resp.content.length > MAX_CONTEXT_CHARS / totalResponses rounds
      · refine ⟨sliceChars resp.content (MAX_CONTEXT_CHARS / totalResponses rounds)
            ++ truncMarker, ?_, Or.inr ⟨rfl, sliceChars_length_le _ _⟩⟩
        simp [renderResponse, herr, hlen]
      · refine ⟨resp.content, ?_, Or.inl ⟨rfl, by omega⟩⟩
        simp [renderResponse, herr, hlen]

/-- Witness for C2 at a one-response transcript just over the budget. -/
theorem c2_witness :
    buildHistoryContext c2RoundsDemo =
      "=== Previous Responses ===\n\n" ++ String.intercalate "\n\n"
        (c2RoundsDemo.enum.map (fun p =>
          renderRound true (MAX_CONTEXT_CHARS / totalResponses c2RoundsDemo) p.1 p.2)) :=
  (c2_history_budget c2RoundsDemo
    (by
      have hlen : c2BigContent.length = 12001 := by
        rw [show c2BigContent.length = (List.replicate 12001 'a').length from rfl]
        exact List.length_replicate 12001 'a'
      have heq : totalContentChars c2RoundsDemo = c2BigContent.length := by
        simp [totalContentChars, c2RoundsDemo]
      show totalContentChars c2RoundsDemo > 12000
      omega)).1

/-! ## C6: createSession sweeps, evicts the oldest, and stays bounded -/

/-- Inserting into the store grows it by at most one entry. -/
lemma length_storeSet_le (st : SessionStore) (s : DebateSession) :
    (storeSet st s).length ≤ st.length + 1 := by
  unfold storeSet
  split
  · simp
  · simp

/-- Every element of the store after an insert is the inserted session or an
original entry. -/
lemma mem_storeSet (st : SessionStore) (s t : DebateSession)
    (h : t ∈ storeSet st s) : t = s ∨ t ∈ st := by
  unfold storeSet at h
  split at h
  · obtain ⟨u, hu, hut⟩ := List.mem_map.mp h
    by_cases hc : (u.id == s.id) = true
    · rw [if_pos hc] at hut
      exact Or.inl hut.symm
    · rw [if_neg hc] at hut
      exact Or.inr (hut ▸ hu)
  · rcases List.mem_append.mp h with h1 | h1
    · exact Or.inr h1
    · exact Or.inl (by simpa using h1)

/-- Surviving the expiry sweep means being an original entry within the TTL. -/
lemma mem_cleanExpired (now : Nat) (st : SessionStore) (t : DebateSession)
    (h : t ∈ cleanExpired now st) :
    t ∈ st ∧ now - t.createdAt ≤ SESSION_TTL_MS := by
  have hx := List.mem_filter.mp h
  refine ⟨hx.1, ?_⟩
  have hb := hx.2
  simp only [Bool.not_eq_true', decide_eq_false_iff_not] at hb
  omega

/-- Membership is preserved by the creation-time sort. -/
lemma mem_sortByCreatedAt (st : SessionStore) (t : DebateSession) :
    t ∈ sortByCreatedAt st ↔ t ∈ st := by
  unfold sortByCreatedAt
  exact List.mem_mergeSort

/-- The creation-time sort is sorted by creation time. -/
lemma sortByCreatedAt_sorted (st : SessionStore) :
    (sortByCreatedAt st).Pairwise (fun a b => byCreatedAt a b = true) := by
  unfold sortByCreatedAt
  exact List.sorted_mergeSort
    (fun a b c hab hbc => by
      simp only [byCreatedAt, decide_eq_true_eq] at hab hbc ⊢
      omega)
    (fun a b => by
      simp only [byCreatedAt, Bool.or_eq_true, decide_eq_true_eq]
      omega) st

/-- The creation-time sort keeps the store's population count. -/
lemma length_sortByCreatedAt (st : SessionStore) :
    (sortByCreatedAt st).length = st.length := by
  unfold sortByCreatedAt
  exact List.length_mergeSort st

/-- The head of the creation-time sort is a member of minimal creation time. -/
lemma sortByCreatedAt_head_min (st : SessionStore) (oldest : DebateSession)
    (rest : SessionStore) (h : sortByCreatedAt st = oldest :: rest) :
    oldest ∈ st ∧ ∀ t ∈ st, oldest.createdAt ≤ t.createdAt := by
  have hmem : oldest ∈ st := by
    rw [← mem_sortByCreatedAt, h]
    exact List.mem_cons_self _ _
  refine ⟨hmem, fun t ht => ?_⟩
  have hsorted := sortByCreatedAt_sorted st
  rw [h] at hsorted
  have ht' : t ∈ oldest :: rest := by
    rw [← h]
    exact (mem_sortByCreatedAt st t).mpr ht
  rcases List.mem_cons.mp ht' with rfl | htr
  · exact le_refl _
  · have hx := (List.pairwise_cons.mp hsorted).1 t htr
    simpa [byCreatedAt] using hx

/-- **C6.** Every `createSession` first sweeps all expired sessions, then —
only when the store still holds at least the 50-entry capacity — evicts
exactly one session of minimal creation time, then inserts the new one; a
store within capacity stays within capacity. -/
theorem c6_create_bounded (now : Nat) (newId : String) (params : CreateParams)
    (store : SessionStore) (hsize : store.length ≤ MAX_SESSIONS) :
    (createSession now newId params store).2.length ≤ MAX_SESSIONS ∧
    (∀ s ∈ (createSession now newId params store).2,
      now - s.createdAt ≤ SESSION_TTL_MS) ∧
    ((cleanExpired now store).length < MAX_SESSIONS →
      (createSession now newId params store).2 =
        storeSet (cleanExpired now store) (newSession now newId params)) ∧
    ((cleanExpired now store).length ≥ MAX_SESSIONS →
      ∃ oldest, oldest ∈ cleanExpired now store ∧
        (∀ t ∈ cleanExpired now store, oldest.createdAt ≤ t.createdAt) ∧
        (createSession now newId params store).2 =
          storeSet (storeDelete (cleanExpired now store) oldest.id)
            (newSession now newId params)) := by
  by_cases hcap : (cleanExpired now store).length ≥ MAX_SESSIONS
  · cases hsort : sortByCreatedAt (cleanExpired now store) with
    | nil =>
      exfalso
      have hl := length_sortByCreatedAt (cleanExpired now store)
      rw [hsort] at hl
      have hlen0 : (cleanExpired now store).length = 0 := by simpa using hl.symm
      have hM : MAX_SESSIONS = 50 := rfl
      omega
    | cons oldest rest =>
      obtain ⟨hmem, hmin⟩ := sortByCreatedAt_head_min _ _ _ hsort
      have hstore_eq : (createSession now newId params store).2 =
          storeSet (storeDelete (cleanExpired now store) oldest.id)
            (newSession now newId params) := by
        simp only [createSession, if_pos hcap, hsort]
      refine ⟨?_, ?_, fun hlt => absurd hcap (by omega),
        fun _ => ⟨oldest, hmem, hmin, hstore_eq⟩⟩
      · rw [hstore_eq]
        have hdel : (storeDelete (cleanExpired now store) oldest.id).length <
            (cleanExpired now store).length := by
          apply List.length_filter_lt_length_iff_exists.mpr
          exact ⟨oldest, hmem, by simp⟩
        have hcl_le : (cleanExpired now store).length ≤ store.length :=
          List.length_filter_le _ _
        have hset := length_storeSet_le
          (storeDelete (cleanExpired now store) oldest.id)
          (newSession now newId params)
        omega
      · rw [hstore_eq]
        intro s hs
        rcases mem_storeSet _ _ _ hs with rfl | hmemdel
        · show now - (newSession now newId params).createdAt ≤ SESSION_TTL_MS
          simp [newSession]
        · have hmcl : s ∈ cleanExpired now store := (List.mem_filter.mp hmemdel).1
          exact (mem_cleanExpired now store s hmcl).2
  · have hstore_eq : (createSession now newId params store).2 =
        storeSet (cleanExpired now store) (newSession now newId params) := by
      simp only [createSession, if_neg hcap]
    refine ⟨?_, ?_, fun _ => hstore_eq, fun hge => absurd hge hcap⟩
    · rw [hstore_eq]
      have hset := length_storeSet_le (cleanExpired now store)
        (newSession now newId params)
      omega
    · rw [hstore_eq]
      intro s hs
      rcases mem_storeSet _ _ _ hs with rfl | hmem2
      · show now - (newSession now newId params).createdAt ≤ SESSION_TTL_MS
        simp [newSession]
      · exact (mem_cleanExpired now store s hmem2).2

/-- Creation parameters used by the C6 witness. -/
def c6Params : CreateParams :=
  { topic := "t", modelIdentifiers := ["openai:gpt-4o"], totalRounds := 2,
    synthesizerIdentifier := "openai:gpt-4o", systemPrompt := none }

/-- A one-entry store used by the C6 witness. -/
def c6Store : SessionStore :=
  [{ id := "old", topic := "t0", modelIdentifiers := ["openai:gpt-4o"],
     totalRounds := 1, currentRound := 1, rounds := [[]],
     synthesizerIdentifier := "openai:gpt-4o", systemPrompt := none,
     failedModels := [], startTime := 0, createdAt := 0,
     totalCharsProcessed := 0, status := .awaiting_host }]

/-- Witness for C6 on a concrete one-entry store. -/
theorem c6_witness :
    (createSession 1000 "fresh" c6Params c6Store).2.length ≤ MAX_SESSIONS :=
  (c6_create_bounded 1000 "fresh" c6Params c6Store (by decide)).1


/-! ## C7 and C10: the brainstorm_respond state machine -/

/-- The session value right after the host contribution has been appended to
the current round and its length accounted — the `session1` of
`brainstormRespondFound`. -/
def appendedSession (sess : DebateSession) (rounds1 : List (List RoundResponse))
    (response : String) : DebateSession :=
  { sess with
      rounds := rounds1
      totalCharsProcessed := sess.totalCharsProcessed + response.length }

/-- A fresh (non-expired) hit in the store: `getSession` returns the session
and leaves the store unchanged. -/
lemma getSession_fresh (now : Nat) (st : SessionStore) (id : String)
    (s : DebateSession) (h1 : storeGet st id = some s)
    (h2 : now - s.createdAt ≤ SESSION_TTL_MS) :
    getSession now st id = (some s, st) := by
  simp only [getSession, h1]
  rw [if_neg (by omega)]

/-- An in-range index always admits the push. -/
lemma pushAt_some : ∀ (rounds : List (List RoundResponse)) (k : Nat)
    (x : RoundResponse), k < rounds.length → ∃ l, pushAt rounds k x = some l := by
  intro rounds
  induction rounds with
  | nil => intro k x h; exact absurd h (Nat.not_lt_zero k)
  | cons r rs ih =>
    intro k x h
    cases k with
    | zero => exact ⟨(r ++ [x]) :: rs, rfl⟩
    | succ n =>
      obtain ⟨l, hl⟩ := ih n x (by simpa using Nat.lt_of_succ_lt_succ h)
      exact ⟨r :: l, by simp [pushAt, hl]⟩

/-- A found session's id is the looked-up key. -/
lemma storeGet_id {st : SessionStore} {id : String} {s : DebateSession}
    (h : storeGet st id = some s) : s.id = id := by
  unfold storeGet at h
  have hp := List.find?_some h
  exact eq_of_beq hp

/-- Replacing the entries matching a present key makes the lookup return the
replacement. -/
lemma storeGet_storeSetMap (id : String) (s1 : DebateSession) (hid : s1.id = id) :
    ∀ (st : SessionStore) (s : DebateSession), storeGet st id = some s →
      storeGet (st.map (fun t => if t.id == s1.id then s1 else t)) id = some s1 := by
  intro st
  induction st with
  | nil => intro s h; cases h
  | cons u st ih =>
    intro s h
    by_cases hu : (u.id == id) = true
    · have hmap : (u.id == s1.id) = true := by rw [hid]; exact hu
      have hs1 : (s1.id == id) = true := by rw [hid]; simp
      unfold storeGet
      rw [List.map_cons, if_pos hmap]
      exact List.find?_cons_of_pos
        (p := fun t : DebateSession => t.id == id) (a := s1) _ hs1
    · have hu' : ¬(u.id == id) = true := hu
      have hmapn : ¬(u.id == s1.id) = true := by rw [hid]; exact hu
      have hrec : storeGet st id = some s := by
        unfold storeGet at h
        rw [List.find?_cons_of_neg
          (p := fun t : DebateSession => t.id == id) (a := u) st hu'] at h
        exact h
      unfold storeGet
      rw [List.map_cons, if_neg hmapn]
      rw [List.find?_cons_of_neg
        (p := fun t : DebateSession => t.id == id) (a := u) _ hu']
      exact ih s hrec

/-- Writing an updated session back under a present key makes the lookup
return the update. -/
lemma storeGet_storeSet_self (st : SessionStore) (id : String)
    (s s1 : DebateSession) (h : storeGet st id = some s) (hid : s1.id = id) :
    storeGet (storeSet st s1) id = some s1 := by
  have hany : st.any (fun t => t.id == s1.id) = true := by
    apply List.any_eq_true.mpr
    refine ⟨s, ?_, ?_⟩
    · unfold storeGet at h
      exact List.mem_of_find?_eq_some h
    · have hsid : s.id = id := storeGet_id h
      rw [hsid, hid]
      simp
  unfold storeSet
  rw [if_pos hany]
  exact storeGet_storeSetMap id s1 hid st s h

/-- **C7.** Submitting the host contribution to an awaiting-host session in
its final round appends it to the final round, synthesizes over the full
transcript including every host contribution, returns the assembled result,
deletes the session, and makes every subsequent call with that id signal
not-found. -/
theorem c7_final_round_completes (ps : List ProviderConfig) (be : Backend)
    (now : Nat) (store : SessionStore) (sessionId response : String)
    (sess : DebateSession)
    (h1 : storeGet store sessionId = some sess)
    (h2 : now - sess.createdAt ≤ SESSION_TTL_MS)
    (h3 : sess.status = SessionStatus.awaiting_host)
    (h4 : sess.currentRound = sess.totalRounds)
    (h5 : 1 ≤ sess.currentRound)
    (h6 : sess.currentRound ≤ sess.rounds.length) :
    ∃ rounds1 result store1,
      pushAt sess.rounds (sess.currentRound - 1)
        (hostResponse sess.currentRound response) = some rounds1 ∧
      brainstormRespond ps be now store sessionId response =
        (.finalResult result, store1) ∧
      result.topic = sess.topic ∧
      result.rounds = rounds1 ∧
      result.synthesis = runSynthesis ps be sess.topic rounds1
        sess.synthesizerIdentifier sess.modelIdentifiers ∧
      result.modelsFailed = sess.failedModels ∧
      storeGet store1 sessionId = none ∧
      ∀ now2 response2,
        (brainstormRespond ps be now2 store1 sessionId response2).1 = .notFound := by
  obtain ⟨rounds1, hpush⟩ := pushAt_some sess.rounds (sess.currentRound - 1)
    (hostResponse sess.currentRound response) (by omega)
  have hga : brainstormRespond ps be now store sessionId response =
      brainstormRespondFound ps be now store sessionId response sess := by
    simp only [brainstormRespond, getSession_fresh now store sessionId sess h1 h2]
  have hstat : (sess.status == SessionStatus.complete) = false := by
    rw [h3]
    rfl
  have hzero : (sess.currentRound == 0) = false := by
    cases hb : (sess.currentRound == 0) with
    | false => rfl
    | true => exact absurd (eq_of_beq hb) (by omega)
  have hfound : brainstormRespondFound ps be now store sessionId response sess =
      respondFinal ps be now
        (storeSet store (appendedSession sess rounds1 response)) sessionId
        (appendedSession sess rounds1 response) := by
    unfold brainstormRespondFound
    rw [hstat, hzero, hpush]
    simp only [Bool.false_eq_true, if_false]
    rw [if_pos ((by omega : sess.totalRounds ≤ sess.currentRound) :
      (appendedSession sess rounds1 response).totalRounds ≤ sess.currentRound)]
    rfl
  rw [hga, hfound]
  simp only [respondFinal]
  refine ⟨rounds1, _, _, hpush, rfl, rfl, rfl, rfl, rfl,
    storeGet_storeDelete _ sessionId, ?_⟩
  intro now2 response2
  rw [brainstormRespond_absent ps be now2 _ sessionId response2
    (storeGet_storeDelete _ sessionId)]

/-- A session ready for its final host turn, used by the C7 witness. -/
def c7Session : DebateSession :=
  { id := "s7", topic := "Topic",
    modelIdentifiers := ["openai:gpt-4o", "deepseek:deepseek-chat"],
    totalRounds := 1, currentRound := 1, rounds := [respDemo],
    synthesizerIdentifier := "openai:gpt-4o", systemPrompt := none,
    failedModels := ["deepseek:deepseek-chat"], startTime := 0, createdAt := 0,
    totalCharsProcessed := 11, status := .awaiting_host }

/-- Witness for C7 at a concrete one-round session. -/
theorem c7_witness :
    ∃ rounds1 result store1,
      pushAt c7Session.rounds (c7Session.currentRound - 1)
        (hostResponse c7Session.currentRound "The host weighs in at length here.") =
        some rounds1 ∧
      brainstormRespond psDemo beDemo 1000 [c7Session] "s7"
          "The host weighs in at length here." =
        (.finalResult result, store1) ∧
      result.topic = c7Session.topic ∧
      result.rounds = rounds1 ∧
      result.synthesis = runSynthesis psDemo beDemo c7Session.topic rounds1
        c7Session.synthesizerIdentifier c7Session.modelIdentifiers ∧
      result.modelsFailed = c7Session.failedModels ∧
      storeGet store1 "s7" = none ∧
      ∀ now2 response2,
        (brainstormRespond psDemo beDemo now2 store1 "s7" response2).1 = .notFound :=
  c7_final_round_completes psDemo beDemo 1000 [c7Session] "s7"
    "The host weighs in at length here." c7Session
    (by decide) (by decide) (by decide) (by decide) (by decide) (by decide)

/-- **C10.** The host contribution is appended (and its length accounted)
before the next round is attempted; when rounds-2+ resolution throws, the
tool reports an error result while the stored session keeps the appended
contribution and its `currentRound` unchanged — the mutation is not rolled
back. -/
theorem c10_mutation_survives_error (ps : List ProviderConfig) (be : Backend)
    (now : Nat) (store : SessionStore) (sessionId response : String)
    (sess : DebateSession) (rounds1 : List (List RoundResponse)) (e : ResolveError)
    (h1 : storeGet store sessionId = some sess)
    (h2 : now - sess.createdAt ≤ SESSION_TTL_MS)
    (h3 : sess.status = SessionStatus.awaiting_host)
    (h4 : 1 ≤ sess.currentRound)
    (h5 : sess.currentRound < sess.totalRounds)
    (h6 : pushAt sess.rounds (sess.currentRound - 1)
        (hostResponse sess.currentRound response) = some rounds1)
    (h7 : resolveAll ps sess.modelIdentifiers = .error e) :
    ∃ msg,
      brainstormRespond ps be now store sessionId response =
        (.errorResult msg, storeSet store (appendedSession sess rounds1 response)) ∧
      storeGet (storeSet store (appendedSession sess rounds1 response)) sessionId =
        some (appendedSession sess rounds1 response) ∧
      (appendedSession sess rounds1 response).currentRound = sess.currentRound ∧
      (appendedSession sess rounds1 response).rounds = rounds1 ∧
      (appendedSession sess rounds1 response).totalCharsProcessed =
        sess.totalCharsProcessed + response.length := by
  have hga : brainstormRespond ps be now store sessionId response =
      brainstormRespondFound ps be now store sessionId response sess := by
    simp only [brainstormRespond, getSession_fresh now store sessionId sess h1 h2]
  have hstat : (sess.status == SessionStatus.complete) = false := by
    rw [h3]
    rfl
  have hzero : (sess.currentRound == 0) = false := by
    cases hb : (sess.currentRound == 0) with
    | false => rfl
    | true => exact absurd (eq_of_beq hb) (by omega)
  have hfound : brainstormRespondFound ps be now store sessionId response sess =
      respondAdvance ps be
        (storeSet store (appendedSession sess rounds1 response)) sessionId
        (appendedSession sess rounds1 response) (sess.currentRound + 1) := by
    unfold brainstormRespondFound
    rw [hstat, hzero, h6]
    simp only [Bool.false_eq_true, if_false]
    rw [if_neg ((by omega : ¬sess.totalRounds ≤ sess.currentRound) :
      ¬(appendedSession sess rounds1 response).totalRounds ≤ sess.currentRound)]
    rfl
  have hrun : runExternalRound ps be
      (appendedSession sess rounds1 response).topic
      (appendedSession sess rounds1 response).modelIdentifiers
      (sess.currentRound + 1)
      (appendedSession sess rounds1 response).totalRounds
      (appendedSession sess rounds1 response).rounds
      (appendedSession sess rounds1 response).systemPrompt = .error e := by
    simp only [runExternalRound]
    rw [show (appendedSession sess rounds1 response).modelIdentifiers =
      sess.modelIdentifiers from rfl, h7]
  refine ⟨"brainstorm_respond failed: " ++ e.message, ?_, ?_, rfl, rfl, rfl⟩
  · rw [hga, hfound]
    simp only [respondAdvance, hrun]
  · have hid0 : sess.id = sessionId := storeGet_id h1
    have hid : (appendedSession sess rounds1 response).id = sessionId := hid0
    exact storeGet_storeSet_self store sessionId sess
      (appendedSession sess rounds1 response) h1 hid

/-- A two-round session whose only model cannot resolve in round 2, used by
the C10 witness. -/
def c10Session : DebateSession :=
  { id := "sa", topic := "Topic", modelIdentifiers := ["ghost:model"],
    totalRounds := 2, currentRound := 1,
    rounds := [[{ modelId := "ghost:model", round := 1, content := "idea", error := none }]],
    synthesizerIdentifier := "ghost:model", systemPrompt := none,
    failedModels := [], startTime := 0, createdAt := 0,
    totalCharsProcessed := 4, status := .awaiting_host }

/-- The transcript of `c10Session` with the host turn appended. -/
def c10Rounds1 : List (List RoundResponse) :=
  [[{ modelId := "ghost:model", round := 1, content := "idea", error := none },
    hostResponse 1 "Host thoughts, well over the minimum length."]]

/-- Witness for C10 at a concrete session whose round-2 resolution fails. -/
theorem c10_witness :
    ∃ msg,
      brainstormRespond psDemo beDemo 1000 [c10Session] "sa"
          "Host thoughts, well over the minimum length." =
        (.errorResult msg,
          storeSet [c10Session] (appendedSession c10Session c10Rounds1
            "Host thoughts, well over the minimum length.")) ∧
      storeGet (storeSet [c10Session] (appendedSession c10Session c10Rounds1
          "Host thoughts, well over the minimum length.")) "sa" =
        some (appendedSession c10Session c10Rounds1
          "Host thoughts, well over the minimum length.") ∧
      (appendedSession c10Session c10Rounds1
        "Host thoughts, well over the minimum length.").currentRound =
        c10Session.currentRound ∧
      (appendedSession c10Session c10Rounds1
        "Host thoughts, well over the minimum length.").rounds = c10Rounds1 ∧
      (appendedSession c10Session c10Rounds1
        "Host thoughts, well over the minimum length.").totalCharsProcessed =
        c10Session.totalCharsProcessed +
          ("Host thoughts, well over the minimum length.").length :=
  c10_mutation_survives_error psDemo beDemo 1000 [c10Session] "sa"
    "Host thoughts, well over the minimum length." c10Session c10Rounds1
    (ResolveError.unknownProvider
      "Unknown provider \"ghost\". Available: openai, deepseek")
    (by decide) (by decide) (by decide) (by decide) (by decide) (by decide) (by decide)

end Brainstorm
